import Mathlib

/-!
Verification of the Energy_logger repository: a shallow embedding of the
pmic sampler (`main.py`), the bench-supply sampler (`main2.py`) and the
CSV plotting dispatcher (`csv_graphs.py`), together with theorems settling
the specification claims. Python floats are modelled as exact rationals
(the spec's properties are stated up to floating-point tolerance), external
readings as `Option ℚ` (`none` = the query or the numeric parse raised),
and the matplotlib figures as the list of their titles.
-/

namespace EnergyLogger

/-! ## main.py — pmic sampler -/

/-- One tick's input to the loop of `measure_energy_to_csv`: the pair
returned by `read_voltage_current`, where `none` means the corresponding
line was missing from the `vcgencmd pmic_read_adc` output or its value
failed to parse as a float (main.py lines 13-28). -/
abbrev Reading := Option ℚ × Option ℚ

/-- `True` exactly when both voltage and current are available, i.e. the
condition `voltage is not None and current is not None` of main.py line 47. -/
def isSuccess : Reading → Bool
  | (some _, some _) => true
  | _ => false

/-- One data row appended to the CSV by main.py lines 50-56 (the timestamp
string is abstracted away; the numeric fields are kept before their
fixed-precision formatting). -/
structure MainRow where
  voltage : ℚ
  current : ℚ
  power : ℚ
  energySoFar : ℚ
  deriving Repr, DecidableEq

/-- The loop-carried state of `measure_energy_to_csv`: the rows written to
the open CSV file, the running `total_energy_joules`, and the number of
warnings printed for unavailable readings. -/
structure MainState where
  rows : List MainRow
  total_energy_joules : ℚ
  warnings : ℕ
  deriving Repr, DecidableEq

/-- Body of the `while` loop of main.py lines 45-59: on a successful
reading compute `power = voltage * current`, add `power * interval_seconds`
to the running total and append a row; otherwise print a warning and leave
the file and the total untouched. -/
def mainTick (interval_seconds : ℚ) (s : MainState) (r : Reading) : MainState :=
  match r with
  | (some voltage, some current) =>
      let power := voltage * current
      let total := s.total_energy_joules + power * interval_seconds
      { rows := s.rows ++ [⟨voltage, current, power, total⟩],
        total_energy_joules := total,
        warnings := s.warnings }
  | _ => { s with warnings := s.warnings + 1 }

/-- `measure_energy_to_csv` run over a finite sequence of tick readings:
the state starts with an empty file and `total_energy_joules = 0.0`
(main.py line 37) and each iteration applies `mainTick`. -/
def measure_energy_to_csv (interval_seconds : ℚ) (ticks : List Reading) : MainState :=
  ticks.foldl (mainTick interval_seconds) ⟨[], 0, 0⟩

/-- The reference sum: `voltage * current * interval` over exactly the
successful ticks of the list. -/
def successEnergy (interval_seconds : ℚ) (ticks : List Reading) : ℚ :=
  (ticks.filterMap fun r => match r with
    | (some v, some c) => some (v * c * interval_seconds)
    | _ => none).sum

theorem foldl_mainTick_total (interval : ℚ) (l : List Reading) (s : MainState) :
    (l.foldl (mainTick interval) s).total_energy_joules
      = s.total_energy_joules + successEnergy interval l := by
  induction l generalizing s with
  | nil => simp [successEnergy]
  | cons r t ih =>
      obtain ⟨v, c⟩ := r
      cases v <;> cases c <;>
        simp [List.foldl_cons, ih, successEnergy, mainTick, List.filterMap_cons] <;>
        ring

theorem foldl_mainTick_rows_length (interval : ℚ) (l : List Reading) (s : MainState) :
    (l.foldl (mainTick interval) s).rows.length
      = s.rows.length + (l.filter isSuccess).length := by
  induction l generalizing s with
  | nil => simp
  | cons r t ih =>
      obtain ⟨v, c⟩ := r
      cases v <;> cases c <;>
        simp [List.foldl_cons, ih, mainTick, isSuccess, List.filter_cons] <;>
        omega

theorem successEnergy_append (interval : ℚ) (l₁ l₂ : List Reading) :
    successEnergy interval (l₁ ++ l₂)
      = successEnergy interval l₁ + successEnergy interval l₂ := by
  simp [successEnergy, List.filterMap_append]

/-- C1: after any number `k` of ticks, the cumulative energy equals the sum
of `voltage * current * interval_seconds` over exactly those of the first
`k` ticks in which both voltage and current were read successfully; failed
ticks contribute nothing. -/
theorem cumulative_energy_eq_sum_of_successes
    (interval : ℚ) (ticks : List Reading) (k : ℕ) :
    (measure_energy_to_csv interval (ticks.take k)).total_energy_joules
      = successEnergy interval (ticks.take k) := by
  simpa using foldl_mainTick_total interval (ticks.take k) ⟨[], 0, 0⟩

/-- C3 counterexample: the running total is not non-decreasing for every
sequence of readings the external source may return: a tick whose parsed
voltage is negative (for instance the string `-1` on the `VDD_CORE_V`
line) makes the total strictly decrease, here from `0` to `-1/10`. -/
theorem energy_monotone_counterexample :
    (measure_energy_to_csv (1/10) ([((some (-1) : Option ℚ), some 1)].take 1)).total_energy_joules
      < (measure_energy_to_csv (1/10) ([((some (-1) : Option ℚ), some 1)].take 0)).total_energy_joules := by
  norm_num [measure_energy_to_csv, mainTick]

/-- C3 amended: within a single run the total starts at zero, never depends
on the CSV file, and is monotonically non-decreasing across every tick
provided the sampling interval is non-negative and every successfully
parsed reading has non-negative instantaneous power `voltage * current`
(as physical pmic readings do); an arbitrary parsed reading with negative
power makes it decrease. -/
theorem energy_monotone_of_nonneg_power
    (interval : ℚ) (ticks : List Reading) (k : ℕ)
    (hi : 0 ≤ interval)
    (h : ∀ r ∈ ticks, ∀ v c : ℚ, r = (some v, some c) → 0 ≤ v * c) :
    (measure_energy_to_csv interval []).total_energy_joules = 0 ∧
    (measure_energy_to_csv interval (ticks.take k)).total_energy_joules
      ≤ (measure_energy_to_csv interval (ticks.take (k + 1))).total_energy_joules := by
  constructor
  · rfl
  · have h1 : (measure_energy_to_csv interval (ticks.take k)).total_energy_joules
        = successEnergy interval (ticks.take k) := by
      simpa using foldl_mainTick_total interval (ticks.take k) ⟨[], 0, 0⟩
    have h2 : (measure_energy_to_csv interval (ticks.take (k + 1))).total_energy_joules
        = successEnergy interval (ticks.take (k + 1)) := by
      simpa using foldl_mainTick_total interval (ticks.take (k + 1)) ⟨[], 0, 0⟩
    rw [h1, h2, List.take_succ, successEnergy_append,
      show ticks[k]? = ticks.get? k from (List.get?_eq_getElem? ticks k).symm]
    have hnn : 0 ≤ successEnergy interval (ticks.get? k).toList := by
      cases hg : ticks.get? k with
      | none => simp [successEnergy]
      | some r =>
          obtain ⟨v, c⟩ := r
          have hmem : (v, c) ∈ ticks := List.get?_mem hg
          cases v with
          | none => simp [successEnergy]
          | some v' =>
              cases c with
              | none => simp [successEnergy]
              | some c' =>
                  have hp : 0 ≤ v' * c' := h _ hmem v' c' rfl
                  have : successEnergy interval [((some v' : Option ℚ), some c')]
                      = v' * c' * interval := by
                    simp [successEnergy]
                  simp only [Option.toList_some, this]
                  exact mul_nonneg hp hi
    linarith

/-- C3 amended, witness: a concrete run with non-negative readings. -/
theorem energy_monotone_of_nonneg_power_witness :
    (measure_energy_to_csv (1/10) []).total_energy_joules = 0 ∧
    (measure_energy_to_csv (1/10) ([((some 2 : Option ℚ), some 3), (none, some 1)].take 1)).total_energy_joules
      ≤ (measure_energy_to_csv (1/10) ([((some 2 : Option ℚ), some 3), (none, some 1)].take 2)).total_energy_joules := by
  refine energy_monotone_of_nonneg_power (1/10) [((some 2 : Option ℚ), some 3), (none, some 1)] 1
    (by norm_num) ?_
  intro r hr v c hvc
  fin_cases hr <;> simp_all
  rw [← hvc.1, ← hvc.2]
  norm_num

/-- C10: a data row is appended in a tick exactly when both voltage and
current were read successfully: the persisted row count equals the number
of successful ticks, a successful tick appends exactly one row, and a
failed tick leaves the file contents and the running total completely
unchanged, printing one warning. -/
theorem row_appended_iff_success (interval : ℚ) (ticks : List Reading) :
    (measure_energy_to_csv interval ticks).rows.length
        = (ticks.filter isSuccess).length ∧
    (∀ s : MainState, ∀ r : Reading, isSuccess r = true →
        (mainTick interval s r).rows.length = s.rows.length + 1 ∧
        (mainTick interval s r).warnings = s.warnings) ∧
    (∀ s : MainState, ∀ r : Reading, isSuccess r = false →
        (mainTick interval s r).rows = s.rows ∧
        (mainTick interval s r).total_energy_joules = s.total_energy_joules ∧
        (mainTick interval s r).warnings = s.warnings + 1) := by
  refine ⟨by simpa using foldl_mainTick_rows_length interval ticks ⟨[], 0, 0⟩, ?_, ?_⟩
  · intro s r hr
    obtain ⟨v, c⟩ := r
    cases v <;> cases c <;> simp_all [isSuccess, mainTick]
  · intro s r hr
    obtain ⟨v, c⟩ := r
    cases v <;> cases c <;> simp_all [isSuccess, mainTick]

/-- C10 witness: the per-tick clauses at a concrete state and readings. -/
theorem row_appended_iff_success_witness :
    (measure_energy_to_csv 1 [((some 2 : Option ℚ), some 3), (none, some 1)]).rows.length
        = ([((some 2 : Option ℚ), some 3), (none, some 1)].filter isSuccess).length ∧
    (mainTick 1 ⟨[], 0, 0⟩ ((some 2 : Option ℚ), some 3)).rows.length = 0 + 1 ∧
    (mainTick 1 ⟨[], 0, 0⟩ ((none : Option ℚ), some 1)).rows = [] := by
  obtain ⟨h1, h2, h3⟩ := row_appended_iff_success 1 [((some 2 : Option ℚ), some 3), (none, some 1)]
  exact ⟨h1, by simpa using (h2 ⟨[], 0, 0⟩ ((some 2 : Option ℚ), some 3) (by decide)).1,
    (h3 ⟨[], 0, 0⟩ ((none : Option ℚ), some 1) (by decide)).1⟩

/-! ## main.py — control flow of the loop, with interrupts -/

/-- An event seen by the sampling loop of main.py: either one tick (with
the pair returned by `read_voltage_current`) or a KeyboardInterrupt
delivered at that point of the run. -/
inductive MainEvent
  | tick (r : Reading)
  | interrupt
  deriving Repr, DecidableEq

/-- How a (finite prefix of a) run ended: `running` means the events were
exhausted with the loop still going (the `with` block still holds the file
open); `interrupted` means a KeyboardInterrupt arrived. -/
inductive RunStatus
  | running
  | interrupted
  deriving Repr, DecidableEq

/-- Result of running main.py's loop on a list of events: the loop state,
how it ended, whether the script itself caught the interrupt, and whether
the CSV file handle was closed. -/
structure MainEventsResult where
  state : MainState
  status : RunStatus
  caughtByProgram : Bool
  fileClosed : Bool
  deriving Repr, DecidableEq

/-- main.py lines 41-59 as a run over events. There is no
`except KeyboardInterrupt` in main.py, so an interrupt propagates out of
the `with open(...)` block uncaught (`caughtByProgram = false`); the
context manager still closes (hence flushes) the file while unwinding
(`fileClosed = true`) and the rows written so far are untouched. -/
def mainRunEvents (interval : ℚ) : MainState → List MainEvent → MainEventsResult
  | s, [] => ⟨s, .running, false, false⟩
  | s, .interrupt :: _ => ⟨s, .interrupted, false, true⟩
  | s, .tick r :: es => mainRunEvents interval (mainTick interval s r) es

/-! ## main2.py — bench-supply sampler -/

/-- One CSV row of main2.py (lines 110-117). -/
structure Main2Row where
  temp : ℚ
  piVolt : ℚ
  sigVolt : ℚ
  sigCurr : ℚ
  power : ℚ
  deriving Repr, DecidableEq

/-- The four external readings of one main2.py tick, in program order:
`vcgencmd measure_temp`, `vcgencmd measure_volts`, `MEAS:VOLT?`,
`MEAS:CURR?`. `none` means that query or its `float(...)` parse raised an
exception. -/
structure Main2TickInput where
  temp : Option ℚ
  piVolt : Option ℚ
  sigVolt : Option ℚ
  sigCurr : Option ℚ
  deriving Repr, DecidableEq

/-- An event seen by main2.py's `while True` loop. -/
inductive Main2Event
  | tick (t : Main2TickInput)
  | interrupt
  deriving Repr, DecidableEq

/-- How main2.py's loop ended: still `running`, stopped by a caught
KeyboardInterrupt, or `crashed` on an exception no handler catches. -/
inductive Main2Status
  | running
  | interrupted
  | crashed
  deriving Repr, DecidableEq

/-- Result of running main2.py's loop on a list of events. -/
structure Main2Result where
  rows : List Main2Row
  status : Main2Status
  caughtByProgram : Bool
  fileClosed : Bool
  deriving Repr, DecidableEq

/-- `true` when all four readings of the tick are available. -/
def main2TickOk (t : Main2TickInput) : Bool :=
  t.temp.isSome && t.piVolt.isSome && t.sigVolt.isSome && t.sigCurr.isSome

/-- main2.py lines 82-123 as a run over events. The only handler is
`except KeyboardInterrupt` (line 122): an interrupt is caught and the
`with` block closes the file. Any other exception — a failing `vcgencmd`
call, a pyvisa error, a `float(...)` ValueError — propagates: the loop
stops at that tick with no row written for it, the `with` block closes the
file during unwinding, and the process dies with a traceback. -/
def main2Run : List Main2Row → List Main2Event → Main2Result
  | rows, [] => ⟨rows, .running, false, false⟩
  | rows, .interrupt :: _ => ⟨rows, .interrupted, true, true⟩
  | rows, .tick t :: es =>
      match t.temp, t.piVolt, t.sigVolt, t.sigCurr with
      | some tc, some pv, some sv, some sc =>
          main2Run (rows ++ [⟨tc, pv, sv, sc, sv * sc⟩]) es
      | _, _, _, _ => ⟨rows, .crashed, false, true⟩

/-- C4 counterexample: not every sampler variant survives a failed
reading. In main2.py a tick whose temperature query fails crashes the
loop: the run ends `crashed`, not caught, and the following (fully
successful) tick is never processed — the loop does not continue. -/
theorem query_failure_crashes_main2 :
    main2Run []
        [.tick ⟨none, some 1, some 5, some 2⟩, .tick ⟨some 40, some 1, some 5, some 2⟩]
      = ⟨[], .crashed, false, true⟩ := by
  rfl

/-- C4 amended: in the pmic variant (main.py) an unavailable or unparsable
reading makes the loop print a warning, skip accumulation and file output
for that tick, and continue with the remaining ticks; in the bench-supply
variant (main2.py) a failed query or malformed parse raises an exception
no handler catches, terminating the loop at that tick. -/
theorem failed_reading_skips_tick
    (interval : ℚ) (s : MainState) (r : Reading) (rest : List MainEvent)
    (hr : isSuccess r = false) :
    mainRunEvents interval s (.tick r :: rest)
      = mainRunEvents interval { s with warnings := s.warnings + 1 } rest ∧
    (mainTick interval s r).total_energy_joules = s.total_energy_joules ∧
    (mainTick interval s r).rows = s.rows ∧
    (mainTick interval s r).warnings = s.warnings + 1 ∧
    (∀ (rows : List Main2Row) (t : Main2TickInput) (es : List Main2Event),
      main2TickOk t = false →
      main2Run rows (.tick t :: es) = ⟨rows, .crashed, false, true⟩) := by
  have hs : mainTick interval s r = { s with warnings := s.warnings + 1 } := by
    obtain ⟨v, c⟩ := r
    cases v <;> cases c <;> simp_all [isSuccess, mainTick]
  refine ⟨by rw [mainRunEvents, hs], by rw [hs], by rw [hs], by rw [hs], ?_⟩
  intro rows t es ht
  obtain ⟨t1, t2, t3, t4⟩ := t
  cases t1 <;> cases t2 <;> cases t3 <;> cases t4 <;>
    simp_all [main2TickOk, main2Run]

/-- C4 amended, witness: a concrete failed tick in each variant. -/
theorem failed_reading_skips_tick_witness :
    mainRunEvents (1/10) ⟨[], 0, 0⟩ [.tick ((none : Option ℚ), some 1)]
      = mainRunEvents (1/10) ⟨[], 0, 1⟩ [] ∧
    main2Run [] [.tick ⟨none, some 1, some 5, some 2⟩]
      = ⟨[], .crashed, false, true⟩ := by
  have h := failed_reading_skips_tick (1/10) ⟨[], 0, 0⟩ ((none : Option ℚ), some 1) []
    (by decide)
  exact ⟨h.1, h.2.2.2.2 [] ⟨none, some 1, some 5, some 2⟩ [] (by decide)⟩

/-- C5 counterexample: a KeyboardInterrupt during main.py's loop is not
caught by the program — main.py has no interrupt handler, so the exception
propagates (the file is still closed by the `with` block on unwinding). -/
theorem interrupt_not_caught_in_main :
    (mainRunEvents (1/10) ⟨[], 0, 0⟩
        [.tick ((some 1 : Option ℚ), some 2), .interrupt]).caughtByProgram = false := by
  rfl

/-- C5 amended: in both variants an interruption of the sampling loop
leaves the partially written CSV preserved, flushed and closed (the `with`
block guarantees it), and the rows written so far are exactly kept; but
only the bench-supply variant (main2.py) catches the KeyboardInterrupt —
in main.py it propagates uncaught and terminates the process. -/
theorem interruption_preserves_file
    (interval : ℚ) (s : MainState) (rest : List MainEvent)
    (rows : List Main2Row) (rest2 : List Main2Event) :
    mainRunEvents interval s (.interrupt :: rest) = ⟨s, .interrupted, false, true⟩ ∧
    main2Run rows (.interrupt :: rest2) = ⟨rows, .interrupted, true, true⟩ :=
  ⟨rfl, rfl⟩

/-- C5 amended, witness: an interrupt as the first event of each run. -/
theorem interruption_preserves_file_witness :
    mainRunEvents (1/10) ⟨[], 0, 0⟩ [MainEvent.interrupt]
      = ⟨⟨[], 0, 0⟩, RunStatus.interrupted, false, true⟩ ∧
    main2Run [] [Main2Event.interrupt] = ⟨[], Main2Status.interrupted, true, true⟩ :=
  interruption_preserves_file (1/10) ⟨[], 0, 0⟩ [] [] []

/-! ## csv_graphs.py — smart_read_csv date inference -/

/-- One cell of a CSV column of `object` dtype, as seen by
`pd.to_datetime`: `missing` is a NaN/None entry (converted to `NaT`
without raising), `dateLike` a non-empty value that parses as a
date/time, `nonDate` a non-empty value whose parse raises. -/
inductive CsvCell
  | missing
  | dateLike
  | nonDate
  deriving Repr, DecidableEq

/-- The dtype of a column after `smart_read_csv`. -/
inductive Dtype
  | numericDtype
  | datetimeDtype
  | objectDtype
  deriving Repr, DecidableEq

/-- A column as produced by `pd.read_csv`: either already numeric, or of
`object` dtype with its list of cells. -/
inductive RawColumn
  | numericCol
  | objectCol (cells : List CsvCell)
  deriving Repr, DecidableEq

/-- `pd.to_datetime(df[col], errors=raise)`: raises (`none`) as soon as
any non-empty value fails to parse; otherwise returns the series, recorded
here as the `notna` mask — `true` where a value parsed, `false` at the
`NaT` produced from a missing entry. -/
def to_datetime (cells : List CsvCell) : Option (List Bool) :=
  if cells.any fun c => c == CsvCell.nonDate then none
  else some (cells.map fun c => c == CsvCell.dateLike)

/-- Number of cells of the column that parse as dates. -/
def parsedCount (cells : List CsvCell) : ℕ :=
  (cells.filter fun c => c == CsvCell.dateLike).length

/-- The per-column inference of `smart_read_csv` (csv_graphs.py lines
28-36): only `object`-dtype columns are touched; `to_datetime` with
`errors=raise` is attempted, any exception is swallowed leaving the
column as text, and on success the column becomes datetime when
`ok_ratio = s.notna().mean()` (with `0` for an empty series) is at least
`0.8`. -/
def smart_read_csv_infer : RawColumn → Dtype
  | .numericCol => .numericDtype
  | .objectCol cells =>
      match to_datetime cells with
      | none => .objectDtype
      | some s =>
          let ok_ratio : ℚ := if s.length = 0 then 0 else (s.count true : ℚ) / (s.length : ℚ)
          if 4/5 ≤ ok_ratio then .datetimeDtype else .objectDtype

/-- The spec's acceptance condition, stated from its words: at least 80%
of the column's non-empty values parse successfully as dates. -/
def specDatetimeAccept (cells : List CsvCell) : Prop :=
  (4 : ℚ) / 5 * ((cells.filter fun c => c != CsvCell.missing).length : ℚ)
    ≤ (parsedCount cells : ℚ)

theorem count_true_map_dateLike (cells : List CsvCell) :
    ((cells.map fun c => c == CsvCell.dateLike).count true) = parsedCount cells := by
  induction cells with
  | nil => rfl
  | cons c t ih =>
      cases c <;> simp_all [parsedCount, List.count_cons, List.filter_cons]

/-- C2 counterexample: a column of five non-empty values of which four
(80%, fewer than 100%) parse as dates is not reclassified — the single
malformed value makes `pd.to_datetime(..., errors=raise)` raise, and the
`except` clause leaves the column as text, even though the spec's 80%
threshold is met. -/
theorem smart_read_csv_80pct_counterexample :
    specDatetimeAccept
        [CsvCell.dateLike, CsvCell.dateLike, CsvCell.dateLike, CsvCell.dateLike, CsvCell.nonDate] ∧
    parsedCount
        [CsvCell.dateLike, CsvCell.dateLike, CsvCell.dateLike, CsvCell.dateLike, CsvCell.nonDate]
      < (([CsvCell.dateLike, CsvCell.dateLike, CsvCell.dateLike, CsvCell.dateLike,
          CsvCell.nonDate].filter fun c => c != CsvCell.missing)).length ∧
    smart_read_csv_infer
        (RawColumn.objectCol
          [CsvCell.dateLike, CsvCell.dateLike, CsvCell.dateLike, CsvCell.dateLike, CsvCell.nonDate])
      = Dtype.objectDtype := by
  refine ⟨?_, by decide, by decide⟩
  show (4 : ℚ) / 5 * ((5 : ℕ) : ℚ) ≤ ((4 : ℕ) : ℚ)
  norm_num

/-- C2 amended: an `object`-dtype column is reclassified as datetime if
and only if none of its values fails to parse (a single malformed
non-empty value leaves it as text) and the column is non-empty with at
least 80% of all its entries being parseable dates (i.e. at most 20% of
the entries are missing). -/
theorem smart_read_csv_datetime_iff (cells : List CsvCell) :
    smart_read_csv_infer (RawColumn.objectCol cells) = Dtype.datetimeDtype ↔
      ((∀ c ∈ cells, c ≠ CsvCell.nonDate) ∧ cells ≠ [] ∧
        4 * cells.length ≤ 5 * parsedCount cells) := by
  by_cases h : (cells.any fun c => c == CsvCell.nonDate) = true
  · have hx : ∃ x ∈ cells, x = CsvCell.nonDate := by simpa using h
    obtain ⟨x, hxmem, rfl⟩ := hx
    have hval : smart_read_csv_infer (RawColumn.objectCol cells) = Dtype.objectDtype := by
      simp only [smart_read_csv_infer, to_datetime]
      rw [if_pos h]
    rw [hval]
    constructor
    · intro hc; exact absurd hc (by decide)
    · rintro ⟨hall, -, -⟩; exact absurd rfl (hall _ hxmem)
  · have hnm : CsvCell.nonDate ∉ cells := by simpa using h
    have hall : ∀ c ∈ cells, c ≠ CsvCell.nonDate := by
      intro c hc hcc
      exact hnm (hcc ▸ hc)
    have hval : smart_read_csv_infer (RawColumn.objectCol cells)
        = (if cells.length = 0 then Dtype.objectDtype
           else if (4 : ℚ) / 5 ≤ (parsedCount cells : ℚ) / (cells.length : ℚ)
           then Dtype.datetimeDtype else Dtype.objectDtype) := by
      simp only [smart_read_csv_infer, to_datetime]
      rw [if_neg h]
      simp only [List.length_map, count_true_map_dateLike]
      by_cases hl : cells.length = 0
      · rw [if_pos hl, if_pos hl, if_neg (by norm_num)]
      · rw [if_neg hl, if_neg hl]
    rw [hval]
    by_cases hl : cells.length = 0
    · rw [if_pos hl]
      have hnil : cells = [] := List.length_eq_zero.mp hl
      constructor
      · intro hc; exact absurd hc (by decide)
      · rintro ⟨-, hne, -⟩; exact absurd hnil hne
    · rw [if_neg hl]
      have hn : (0 : ℚ) < (cells.length : ℚ) := by
        exact_mod_cast Nat.pos_of_ne_zero hl
      have hq : ((4 : ℚ) / 5 ≤ (parsedCount cells : ℚ) / (cells.length : ℚ))
          ↔ (4 * cells.length ≤ 5 * parsedCount cells) := by
        rw [div_le_div_iff₀ (by norm_num) hn, mul_comm ((parsedCount cells : ℚ)) 5]
        norm_cast
      by_cases hr : (4 : ℚ) / 5 ≤ (parsedCount cells : ℚ) / (cells.length : ℚ)
      · rw [if_pos hr]
        simp only [true_iff, eq_self_iff_true]
        exact ⟨hall, fun hnil => hl (by simp [hnil]), hq.mp hr⟩
      · rw [if_neg hr]
        constructor
        · intro hc; exact absurd hc (by decide)
        · rintro ⟨-, -, hcount⟩; exact absurd (hq.mpr hcount) hr

/-- C2 amended, witness: four dates and one missing value (80% of the
entries parse, none raises) are reclassified as datetime. -/
theorem smart_read_csv_datetime_iff_witness :
    smart_read_csv_infer
        (RawColumn.objectCol
          [CsvCell.dateLike, CsvCell.dateLike, CsvCell.dateLike, CsvCell.dateLike, CsvCell.missing])
      = Dtype.datetimeDtype :=
  (smart_read_csv_datetime_iff _).mpr ⟨by decide, by decide, by decide⟩

/-! ## csv_graphs.py — plot dispatch

A loaded table is modelled by its column schema after `smart_read_csv`
inference; each plot function returns the list of figures it created
(identified by their titles) together with the message of the `ValueError`
it raised, if any. In the source every `raise` sits before the first
figure/plot call of its function, so an error result means no plot call
was made. -/

/-- A column of the loaded table: its name and post-inference dtype. -/
structure DFColumn where
  name : String
  dtype : Dtype
  deriving Repr, DecidableEq

/-- The loaded table: the ordered column schema and the row count. -/
structure DataFrame where
  cols : List DFColumn
  nrows : ℕ
  deriving Repr, DecidableEq

/-- `numeric_cols` (csv_graphs.py lines 39-40): names of the numeric
columns, in table order. -/
def numeric_cols (df : DataFrame) : List String :=
  (df.cols.filter fun c => c.dtype == Dtype.numericDtype).map fun c => c.name

/-- `datetime_cols` (csv_graphs.py lines 42-43): names of the datetime
columns, in table order. -/
def datetime_cols (df : DataFrame) : List String :=
  (df.cols.filter fun c => c.dtype == Dtype.datetimeDtype).map fun c => c.name

/-- `line_over_time` (csv_graphs.py lines 59-80): defaults the time column
to the first datetime column (raising if none), defaults the y columns to
all numeric columns (raising if that list is empty), then creates one
figure per y column titled `title ++ ": " ++ col`. -/
def line_over_time (df : DataFrame) (time_col : Option String)
    (y_cols : Option (List String)) (title : String := "Line over time") :
    List String × Option String :=
  match (match time_col with
         | some t => some t
         | none => (datetime_cols df).head?) with
  | none => ([], some "No datetime-like column found. Specify --time-col.")
  | some _ =>
      let ys := y_cols.getD (numeric_cols df)
      if ys.isEmpty then ([], some "No numeric columns to plot.")
      else (ys.map fun col => title ++ ": " ++ col, none)

/-- `histograms` (csv_graphs.py lines 98-112): raises before any plot call
when there is no numeric column, otherwise creates one histogram figure
per numeric column. -/
def histograms (df : DataFrame) : List String × Option String :=
  let nums := numeric_cols df
  if nums.isEmpty then ([], some "No numeric columns found for histograms.")
  else (nums.map fun col => "Histogram: " ++ col, none)

/-- `correlation_heatmap` (csv_graphs.py lines 125-141): selects the
numeric sub-table `num = df[numeric_cols(df)]` and raises before any plot
call when `num.empty` (zero rows or zero numeric columns) or when it has
fewer than two numeric columns; otherwise renders one heatmap figure. -/
def correlation_heatmap (df : DataFrame) : List String × Option String :=
  let k := (numeric_cols df).length
  if (df.nrows = 0 ∨ k = 0) ∨ k < 2 then
    ([], some "Need at least two numeric columns for a correlation heatmap.")
  else (["Correlation heatmap"], none)

/-- C8: on a table with zero numeric columns both `histograms` and
`correlation_heatmap` raise a descriptive error having made no plot call,
and `correlation_heatmap` raises whenever there are fewer than two numeric
columns. -/
theorem histograms_heatmap_require_numeric (df : DataFrame) :
    (numeric_cols df = [] →
      histograms df = ([], some "No numeric columns found for histograms.") ∧
      correlation_heatmap df
        = ([], some "Need at least two numeric columns for a correlation heatmap.")) ∧
    ((numeric_cols df).length < 2 →
      correlation_heatmap df
        = ([], some "Need at least two numeric columns for a correlation heatmap.")) := by
  constructor
  · intro h0
    constructor
    · simp [histograms, h0]
    · simp [correlation_heatmap, h0]
  · intro h2
    simp [correlation_heatmap, h2]

/-- C8 witness: a table whose single column is textual. -/
theorem histograms_heatmap_require_numeric_witness :
    histograms ⟨[⟨"note", Dtype.objectDtype⟩], 3⟩
      = ([], some "No numeric columns found for histograms.") ∧
    correlation_heatmap ⟨[⟨"note", Dtype.objectDtype⟩], 3⟩
      = ([], some "Need at least two numeric columns for a correlation heatmap.") := by
  have h := (histograms_heatmap_require_numeric ⟨[⟨"note", Dtype.objectDtype⟩], 3⟩).1 (by decide)
  exact h

/-- C9: on a table with exactly one datetime column and exactly two
numeric columns, `line_over_time` called with its defaults creates exactly
two figures, one per numeric column in table order, each titled with that
column's name (prefixed by the default title). -/
theorem line_over_time_default_two_numeric (df : DataFrame) (t a b : String)
    (hd : datetime_cols df = [t]) (hn : numeric_cols df = [a, b]) :
    line_over_time df none none
      = (["Line over time: " ++ a, "Line over time: " ++ b], none) := by
  simp [line_over_time, hd, hn]

/-- C9 witness: the sampler's own schema after inference — one timestamp
column and two numeric columns. -/
theorem line_over_time_default_two_numeric_witness :
    line_over_time
        ⟨[⟨"Timestamp", Dtype.datetimeDtype⟩, ⟨"Voltage (V)", Dtype.numericDtype⟩,
          ⟨"Current (A)", Dtype.numericDtype⟩], 5⟩ none none
      = (["Line over time: " ++ "Voltage (V)", "Line over time: " ++ "Current (A)"], none) :=
  line_over_time_default_two_numeric _ "Timestamp" "Voltage (V)" "Current (A)"
    (by decide) (by decide)

/-! ## csv_graphs.py — main entry point -/

/-- The facts about one invocation of `main()` (csv_graphs.py lines
145-207) that determine its control flow: whether the `--csv` path exists,
whether `smart_read_csv` succeeds, which optional plots are requested, and
which of the five guarded plot calls raise an exception. -/
structure GraphsCliInput where
  fileExists : Bool
  readOk : Bool
  skipLine : Bool
  skipHist : Bool
  skipHeatmap : Bool
  lineRaises : Bool
  histRaises : Bool
  scatterRequested : Bool
  scatterRaises : Bool
  topRequested : Bool
  topRaises : Bool
  heatmapRaises : Bool
  deriving Repr, DecidableEq

/-- How the process ends: a deliberate `sys.exit` / normal return with the
given status, or an uncaught exception (the interpreter prints a traceback
to stderr and terminates abnormally). -/
inductive ProcOutcome
  | exited (code : ℕ)
  | uncaughtException
  deriving Repr, DecidableEq

/-- Observable result of `main()`: the outcome, the error lines the
program itself printed to stderr, and the `[...] skipped: ...` lines
printed to stdout for caught plot failures. -/
structure GraphsMainResult where
  outcome : ProcOutcome
  stderrLines : List String
  stdoutSkips : List String
  deriving Repr, DecidableEq

/-- `main()` of csv_graphs.py: exit 1 with a stderr message when the CSV
path does not exist (lines 167-169); `smart_read_csv` at line 171 is
outside every `try`, so a load failure propagates uncaught; each of the
five plot calls is wrapped in `try/except Exception` that prints one
skip line to stdout, and the function then returns normally (exit 0). -/
def graphs_main (inp : GraphsCliInput) : GraphsMainResult :=
  if inp.fileExists = false then
    { outcome := ProcOutcome.exited 1,
      stderrLines := ["ERROR: CSV file not found"],
      stdoutSkips := [] }
  else if inp.readOk = false then
    { outcome := ProcOutcome.uncaughtException, stderrLines := [], stdoutSkips := [] }
  else
    { outcome := ProcOutcome.exited 0,
      stderrLines := [],
      stdoutSkips :=
        (if !inp.skipLine && inp.lineRaises then ["[line_over_time] skipped"] else []) ++
        (if !inp.skipHist && inp.histRaises then ["[histograms] skipped"] else []) ++
        (if inp.scatterRequested && inp.scatterRaises then ["[scatter] skipped"] else []) ++
        (if inp.topRequested && inp.topRaises then ["[bar_top_n] skipped"] else []) ++
        (if !inp.skipHeatmap && inp.heatmapRaises then ["[correlation_heatmap] skipped"] else []) }

/-- Number of requested plot calls that raise in this invocation. -/
def requestedFailingPlots (inp : GraphsCliInput) : ℕ :=
  (if !inp.skipLine && inp.lineRaises then 1 else 0) +
  (if !inp.skipHist && inp.histRaises then 1 else 0) +
  (if inp.scatterRequested && inp.scatterRaises then 1 else 0) +
  (if inp.topRequested && inp.topRaises then 1 else 0) +
  (if !inp.skipHeatmap && inp.heatmapRaises then 1 else 0)

/-- C6 counterexample: the claim says every run with an existing input
file exits with status 0, but when the file exists and `smart_read_csv`
fails (malformed CSV, wrong encoding, empty file) the exception is
uncaught — the process does not exit 0. -/
theorem graphs_main_read_failure_counterexample :
    (GraphsCliInput.mk true false false false false false false false false false false false).fileExists
        = true ∧
    (graphs_main
        (GraphsCliInput.mk true false false false false false false false false false false false)).outcome
      ≠ ProcOutcome.exited 0 ∧
    (graphs_main
        (GraphsCliInput.mk true false false false false false false false false false false false)).outcome
      = ProcOutcome.uncaughtException := by
  refine ⟨rfl, ?_, rfl⟩
  intro hc
  cases hc

/-- C6 amended: `main` exits 1 with a stderr message exactly when the
input path does not exist; it exits 0 exactly when the file exists and the
CSV loads, in which case every requested plot failure is caught and
reported by one stdout line; when the file exists but loading fails the
exception propagates uncaught instead of exiting 0. -/
theorem graphs_main_exit_behavior (inp : GraphsCliInput) :
    ((graphs_main inp).outcome = ProcOutcome.exited 1 ↔ inp.fileExists = false) ∧
    ((graphs_main inp).stderrLines ≠ [] ↔ inp.fileExists = false) ∧
    ((graphs_main inp).outcome = ProcOutcome.exited 0
        ↔ (inp.fileExists = true ∧ inp.readOk = true)) ∧
    ((graphs_main inp).outcome = ProcOutcome.uncaughtException
        ↔ (inp.fileExists = true ∧ inp.readOk = false)) ∧
    ((graphs_main inp).stdoutSkips.length
        = if inp.fileExists && inp.readOk then requestedFailingPlots inp else 0) := by
  obtain ⟨fe, ro, sl, sh, shm, lr, hr, sr, srr, tr, trr, hmr⟩ := inp
  cases fe <;> cases ro <;>
    simp [graphs_main, requestedFailingPlots] <;>
    split_ifs <;> simp

/-- C6 amended, witness: a missing input file exits with status 1. -/
theorem graphs_main_exit_behavior_witness :
    (graphs_main
        (GraphsCliInput.mk false true false false false false false false false false false false)).outcome
      = ProcOutcome.exited 1 :=
  ((graphs_main_exit_behavior _).1).mpr rfl

end EnergyLogger
